import Mathlib

/-!
# SEC-data-insights: shallow embedding and verification

This file embeds the core logic of the SEC-data-insights repository
(API client, response cache, statement processors, industry analyzer)
as executable Lean definitions, and proves or refutes the frozen claims
about it.  Each definition is transcribed from the Python source file it
names; modeling conventions (e.g. exceptions as `Except`/`Option`,
DataFrames as association lists of columns) are documented inline.
-/

/-! ## Generic string helpers (Python semantics) -/

/-- Python whitespace characters stripped by `str.strip()` (ASCII subset;
the repository only ever handles ASCII identifiers). -/
def isPyWhitespace (c : Char) : Bool :=
  c = ' ' || c = '\t' || c = '\n' || c = '\r' || c = '\x0b' || c = '\x0c'

/-- `str.strip()` on a character list: drop leading and trailing whitespace. -/
def stripChars (l : List Char) : List Char :=
  ((l.dropWhile isPyWhitespace).reverse.dropWhile isPyWhitespace).reverse

/-- `str.lstrip('0')`: drop leading `'0'` characters. -/
def lstripZeroChars (l : List Char) : List Char :=
  l.dropWhile (fun c => c == '0')

/-- Python `str.isdigit()` (ASCII): non-empty and all characters are digits.
`"".isdigit()` is `False` in Python. -/
def isdigitChars (l : List Char) : Bool :=
  !l.isEmpty && l.all (fun c => c.isDigit)

/-- Python `str.zfill(n)`: left-pad with `'0'` to length `n`
(the inputs it is applied to here are plain digit strings, no sign). -/
def zfillChars (n : Nat) (l : List Char) : List Char :=
  List.replicate (n - l.length) '0' ++ l

/-- Python substring test `needle in hay` on character lists
(the empty needle is contained in everything). -/
def listContainsSub (needle : List Char) : List Char → Bool
  | [] => needle.isEmpty
  | c :: rest => needle.isPrefixOf (c :: rest) || listContainsSub needle rest

/-- Python substring test on strings. -/
def strContainsSub (needle hay : String) : Bool :=
  listContainsSub needle.toList hay.toList

/-! ## `SECClient._validate_cik`  (src/utils/sec_client.py lines 87-103)

```python
cik_str = str(cik).strip().lstrip('0')
if not cik_str.isdigit():
    raise ValueError("CIK must contain only digits")
return cik_str.zfill(10)
```

A raised `ValueError` is modeled as `none`. -/
def validate_cik (cik : String) : Option String :=
  if isdigitChars (lstripZeroChars (stripChars cik.toList)) then
    some (String.mk (zfillChars 10 (lstripZeroChars (stripChars cik.toList))))
  else none

/-! ## `SECClient._make_request`  (src/utils/sec_client.py lines 50-85)

The network is modeled as a function from the (0-based) attempt index to
that attempt's outcome: a parsed JSON payload (abstracted to `Nat`), an
HTTP 429 ("too many requests", raised as `SECRateLimitError`), or any
other `requests.RequestException` (timeout, connection error, non-2xx
from `raise_for_status`) carrying its message.

```python
for attempt in range(self.max_retries):
    try:
        self._rate_limit()
        response = requests.request(method, url, headers=self.headers)
        if response.status_code == 429:
            raise SECRateLimitError("SEC API rate limit exceeded")
        response.raise_for_status()
        return response.json()
    except SECRateLimitError:
        if attempt == self.max_retries - 1:
            raise
        time.sleep(self.retry_delay * (attempt + 1))
    except requests.exceptions.RequestException as e:
        if attempt == self.max_retries - 1:
            raise SECDataError(f"Failed to retrieve SEC data: {str(e)}")
        time.sleep(self.retry_delay)
```

If the loop body never runs (``max_retries <= 0``) the function falls off
the end and implicitly returns ``None``, modeled as `RequestResult.pyNone`.
A run records the returned/raised result, the list of `time.sleep`
durations performed between attempts, and the number of attempts made. -/

inductive AttemptOutcome where
  | ok (payload : Nat)
  | tooMany
  | transportErr (msg : String)
  deriving DecidableEq

inductive RequestResult where
  | success (payload : Nat)
  | rateLimitErr
  | dataErr (msg : String)
  | pyNone
  deriving DecidableEq

structure RequestRun where
  result : RequestResult
  sleeps : List Nat
  attempts : Nat
  deriving DecidableEq

/-- Whether an attempt's outcome is a success (no exception raised). -/
def attemptOk : AttemptOutcome → Bool
  | .ok _ => true
  | _ => false

/-- One pass of the retry loop: `attempt` is the current 0-based index,
the second argument is the number of loop iterations remaining
(`remaining = max_retries - attempt`); `remaining = 1` means this is the
final attempt (`attempt == max_retries - 1`). -/
def make_request_go (retry_delay : Nat) (net : Nat → AttemptOutcome) :
    Nat → Nat → RequestRun
  | _, 0 => ⟨.pyNone, [], 0⟩
  | attempt, remaining + 1 =>
    match net attempt with
    | .ok v => ⟨.success v, [], 1⟩
    | .tooMany =>
      if remaining = 0 then ⟨.rateLimitErr, [], 1⟩
      else
        let r := make_request_go retry_delay net (attempt + 1) remaining
        ⟨r.result, retry_delay * (attempt + 1) :: r.sleeps, r.attempts + 1⟩
    | .transportErr m =>
      if remaining = 0 then
        ⟨.dataErr ("Failed to retrieve SEC data: " ++ m), [], 1⟩
      else
        let r := make_request_go retry_delay net (attempt + 1) remaining
        ⟨r.result, retry_delay :: r.sleeps, r.attempts + 1⟩

/-- `SECClient._make_request` with `max_retries` attempts. -/
def make_request (retry_delay : Nat) (net : Nat → AttemptOutcome)
    (max_retries : Nat) : RequestRun :=
  make_request_go retry_delay net 0 max_retries

/-! ## `SECClient.get_frames`  (src/utils/sec_client.py lines 201-243)

```python
if quarter and not 1 <= quarter <= 4:
    raise ValueError("Quarter must be between 1 and 4")
if quarter:
    period = f"CY{year}Q{quarter}"
    if instantaneous:
        period += "I"
else:
    period = f"CY{year}"
url = f"{self.api_url}/frames/{taxonomy}/{tag}/{unit}/{period}.json"
return self._make_request(url)
```

Python truthiness: `quarter` is falsy when it is `None` *or* `0`.
The result distinguishes a `ValueError` raised before any network access
from the network request that `_make_request` is asked to perform. -/

inductive FramesCall where
  | valueError (msg : String)
  | request (url : String)
  deriving DecidableEq

/-- Truthiness of the optional `quarter` argument. -/
def quarterTruthy : Option Int → Bool
  | none => false
  | some q => q != 0

def get_frames (taxonomy tag unit : String) (year : Int)
    (quarter : Option Int) (instantaneous : Bool) : FramesCall :=
  if quarterTruthy quarter ∧
      ¬(1 ≤ quarter.getD 0 ∧ quarter.getD 0 ≤ 4) then
    .valueError "Quarter must be between 1 and 4"
  else
    let period :=
      if quarterTruthy quarter then
        let base := "CY" ++ toString year ++ "Q" ++ toString (quarter.getD 0)
        if instantaneous then base ++ "I" else base
      else "CY" ++ toString year
    .request ("https://data.sec.gov/api/xbrl/frames/" ++ taxonomy ++ "/" ++
      tag ++ "/" ++ unit ++ "/" ++ period ++ ".json")

/-! ## `cache_sec_response` cache key  (src/utils/cache.py lines 45-49)

```python
def wrapper(*args, **kwargs):
    cache_key = f"{func.__name__}_{str(args)}_{str(kwargs)}"
    cache_hash = hashlib.md5(cache_key.encode()).hexdigest()
    cache_file = settings.CACHE_DIR / f"{cache_hash}.json"
```

The decorated functions are methods, so when a call
`client.get_company_facts("320193")` reaches the wrapper, `args[0]` is
the client instance itself.  `SECClient` defines no `__str__`/`__repr__`,
so `str(args)` renders the instance with CPython's default
`object.__repr__`, which embeds the object's memory address, e.g.
`<src.utils.sec_client.SECClient object at 0x7f93c0a1b2e0>`.  The
instance's rendering is the `selfRepr` argument below; the remaining
positional arguments are strings rendered with `repr` (quoted). -/

/-- Python `repr` of a string argument as it appears inside `str(args)`. -/
def pyStrRepr (s : String) : String := "'" ++ s ++ "'"

/-- `", ".join(elems)` (how `str` renders tuple/dict elements). -/
def pyCommaJoin : List String → String
  | [] => ""
  | [e] => e
  | e :: rest => e ++ ", " ++ pyCommaJoin rest

/-- Python `str` of a tuple of already-rendered elements
(one-element tuples carry a trailing comma). -/
def pyTupleStr (elems : List String) : String :=
  match elems with
  | [e] => "(" ++ e ++ ",)"
  | _ => "(" ++ pyCommaJoin elems ++ ")"

/-- Python `str` of the keyword-argument dict, values already rendered. -/
def pyDictStr (kwargs : List (String × String)) : String :=
  "\x7b" ++
    pyCommaJoin (kwargs.map (fun p => "'" ++ p.1 ++ "': " ++ p.2)) ++ "\x7d"

/-- The cache key the wrapper builds:
`f"{func.__name__}_{str(args)}_{str(kwargs)}"`, with `args[0]` the bound
instance (rendered as `selfRepr`) and the remaining positional arguments
strings. -/
def cache_key (funcName selfRepr : String) (args : List String)
    (kwargs : List (String × String)) : String :=
  funcName ++ "_" ++ pyTupleStr (selfRepr :: args.map pyStrRepr) ++ "_" ++
    pyDictStr kwargs

/-! ## `clear_cache`  (src/utils/cache.py lines 12-39)

A cache file either deserializes to a JSON object (whose stored
`cache_key` field defaults to `""` when absent, via
`cache_data.get('cache_key', '')`) or is corrupt/unreadable
(`json.load` raises; the except-branch logs a warning and continues
without deleting).  Python truthiness: `if pattern:` is false for `None`
*and* for the empty string, in which case every file is deleted
unconditionally.  The result is (files remaining, count deleted). -/

inductive CacheFileContent where
  | valid (cache_key : String)
  | corrupt
  deriving DecidableEq

structure CacheFile where
  name : String
  content : CacheFileContent
  deriving DecidableEq

/-- Truthiness of the optional `pattern` argument. -/
def patternTruthy : Option String → Bool
  | none => false
  | some s => s != ""

/-- The `for file in settings.CACHE_DIR.glob("*.json")` loop, one file at
a time (`pt` is the truthiness of the pattern, `p` its text). -/
def clear_cache_loop (pt : Bool) (p : String) :
    List CacheFile → List CacheFile × Nat
  | [] => ([], 0)
  | f :: rest =>
    let r := clear_cache_loop pt p rest
    if pt then
      match f.content with
      | .corrupt => (f :: r.1, r.2)
      | .valid key =>
        if listContainsSub p.toList key.toList then (r.1, r.2 + 1)
        else (f :: r.1, r.2)
    else (r.1, r.2 + 1)

def clear_cache (dirExists : Bool) (files : List CacheFile)
    (pattern : Option String) : List CacheFile × Nat :=
  if !dirExists then (files, 0)
  else clear_cache_loop (patternTruthy pattern) (pattern.getD "") files

/-- Whether `clear_cache` with truthy pattern `p` deletes a file: the
file deserializes and its stored `cache_key` contains `p`. -/
def cacheFileMatches (p : String) (f : CacheFile) : Bool :=
  match f.content with
  | .valid key => listContainsSub p.toList key.toList
  | .corrupt => false

/-! ## `SECClient.get_company_facts`  (src/utils/sec_client.py lines 142-176)

The class body defines `get_company_facts` twice: once at line 142
decorated with `@cache_sec_response(expires_after=timedelta(days=7))`,
and again at line 163 with no decorator.  Python executes a class body
top to bottom, so the later, *uncached* definition is the one bound to
the attribute name; the cached one is dead code.  `secClientMethodDefs`
transcribes the class body's endpoint definitions in source order with
whether each is wrapped by `cache_sec_response`. -/

def secClientMethodDefs : List (String × Bool) :=
  [("get_company_list", true),
   ("get_company_submissions", true),
   ("get_company_facts", true),
   ("get_company_facts", false),
   ("get_company_concept", true),
   ("get_frames", true)]

/-- Attribute resolution after the class body ran: the last definition of
a name wins. -/
def methodIsCached (name : String) : Bool :=
  ((secClientMethodDefs.filter (fun d => d.1 = name)).getLast?.map
    Prod.snd).getD false

/-- The live (second, uncached) `get_company_facts`: validate the CIK,
build the URL, and call `_make_request` — every call performs a network
request.  The network is abstracted to a payload function on URLs (the
success path of `_make_request`); `requests` records the URLs requested
so far, appended on every call.  A `ValueError` from `_validate_cik` is
`none`. -/
def get_company_facts (net : String → Nat) (requests : List String)
    (cik : String) : Option (Nat × List String) :=
  match validate_cik cik with
  | none => none
  | some c =>
    let url := "https://data.sec.gov/api/xbrl/companyfacts/CIK" ++ c ++
      ".json"
    some (net url, requests ++ [url])

/-! ## `IndustryAnalyzer`  (src/utils/industry_analyzer.py)

`key_metrics` maps a metric name to its `(tag, unit)` configuration.
A frame fetch (`self.client.get_frames(taxonomy="us-gaap", tag=…,
unit=…, year=…, quarter=…)` followed by the `'data' in frame_data`
check and `pd.DataFrame(frame_data['data'])`) is abstracted to
`fetch : tag → unit → Option (List FrameRow)`: `none` means the fetch
raised (caught and logged, the metric is omitted) or the `data` key was
absent; `some rows` is the frame's row list (possibly empty).  The year,
quarter and taxonomy are fixed across the calls and absorbed into
`fetch`. -/

def key_metrics : List (String × String × String) :=
  [("Assets", "Assets", "USD"),
   ("Revenue", "Revenues", "USD"),
   ("NetIncome", "NetIncomeLoss", "USD"),
   ("OperatingIncome", "OperatingIncomeLoss", "USD"),
   ("EarningsPerShare", "EarningsPerShareDiluted", "USD-per-shares")]

structure FrameRow where
  cik : String
  entityName : String
  val : ℚ
  deriving DecidableEq

/-- `metrics = metrics or list(self.key_metrics.keys())`: `None` and the
empty list are both falsy and fall back to all registered metrics. -/
def metricsOrDefault : Option (List String) → List String
  | none => key_metrics.map (fun e => e.1)
  | some [] => key_metrics.map (fun e => e.1)
  | some l => l

/-- Python dict assignment `d[k] = v`: overwrite in place if the key
exists, else append. -/
def dictInsert {α : Type} (l : List (String × α)) (k : String) (v : α) :
    List (String × α) :=
  if l.any (fun p => p.1 = k) then
    l.map (fun p => if p.1 = k then (k, v) else p)
  else l ++ [(k, v)]

/-- `IndustryAnalyzer.get_industry_metrics` (lines 22-62): an
unsupported metric is logged with a warning and skipped (`continue`) —
no exception is raised; a failed fetch is logged and the metric omitted.
The function always returns normally with the dict of collected
frames. -/
def get_industry_metrics (fetch : String → String → Option (List FrameRow))
    (metrics : Option (List String)) : List (String × List FrameRow) :=
  (metricsOrDefault metrics).foldl
    (fun results m =>
      match List.lookup m key_metrics with
      | none => results
      | some (tag, unit) =>
        match fetch tag unit with
        | none => results
        | some rows => dictInsert results m rows) []

/-- Ascending insertion into a sorted list of rationals. -/
def insertAscQ (x : ℚ) : List ℚ → List ℚ
  | [] => [x]
  | y :: ys => if x ≤ y then x :: y :: ys else y :: insertAscQ x ys

def sortAscQ (l : List ℚ) : List ℚ := l.foldr insertAscQ []

/-- `df['val'].describe()['50%']`: pandas' median — middle element for odd
length, average of the two middle elements for even length. -/
def medianQ (l : List ℚ) : ℚ :=
  let s := sortAscQ l
  let n := s.length
  if n % 2 = 1 then s.getD (n / 2) 0
  else (s.getD (n / 2 - 1) 0 + s.getD (n / 2) 0) / 2

/-- `df['val'].describe()['mean']`. -/
def meanQ (l : List ℚ) : ℚ := l.sum / (l.length : ℚ)

/-- `(df['val'] <= company_value).mean() * 100`: the mean of a boolean
series is the count of `True` over the length. -/
def percentileOf (vals : List ℚ) (cv : ℚ) : ℚ :=
  ((vals.countP (fun v => v ≤ cv) : ℚ) / (vals.length : ℚ)) * 100

/-- `f"{'Q'+str(quarter) if quarter else 'FY'}{year}"` (truthiness again:
`quarter = 0` renders as `FY`). -/
def periodStr (quarter : Option Int) (year : Int) : String :=
  (match quarter with
   | some q => if q ≠ 0 then "Q" ++ toString q else "FY"
   | none => "FY") ++ toString year

/-- One row of the `analyze_company_position` result frame
(lines 100-108 of industry_analyzer.py). -/
structure PositionRow where
  metric : String
  company_value : ℚ
  industry_median : ℚ
  industry_mean : ℚ
  percentile : ℚ
  num_companies : Nat
  period : String
  deriving DecidableEq

/-- `IndustryAnalyzer.analyze_company_position` (lines 64-113): for each
collected metric frame, skip it if empty or if no row's `cik` equals the
given `cik` (`company_row.empty`); otherwise take the first matching
row's value (`company_row['val'].iloc[0]`), descriptive statistics over
all rows, and the percentile. -/
def analyze_company_position (fetch : String → String → Option (List FrameRow))
    (cik : String) (year : Int) (quarter : Option Int)
    (metrics : Option (List String)) : List PositionRow :=
  (get_industry_metrics fetch metrics).foldl
    (fun results mr =>
      if mr.2.isEmpty then results
      else
        match mr.2.find? (fun r => r.cik == cik) with
        | none => results
        | some row =>
          let vals := mr.2.map (fun r => r.val)
          results ++ [⟨mr.1, row.val, medianQ vals, meanQ vals,
            percentileOf vals row.val, mr.2.length,
            periodStr quarter year⟩]) []

/-- Stable descending insertion (an element inserted from the left stays
ahead of equal values, matching `DataFrame.nlargest`'s `keep='first'`). -/
def insertDescFR (r : FrameRow) : List FrameRow → List FrameRow
  | [] => [r]
  | x :: xs => if r.val < x.val then x :: insertDescFR r xs else r :: x :: xs

def sortDescFR (l : List FrameRow) : List FrameRow := l.foldr insertDescFR []

/-- `df.nlargest(top_n, 'val')`. -/
def nlargest (top_n : Nat) (l : List FrameRow) : List FrameRow :=
  (sortDescFR l).take top_n

/-- `IndustryAnalyzer.get_peer_rankings` (lines 115-163): the only entry
point that raises `ValueError` for an unsupported metric; any exception
past that point is caught and an empty frame returned.  Result rows are
`(entityName, val, cik)`; the display-string formatting of `val`
(`'${:,.0f}'.format` / `'{:,.2f}'.format`) is presentational and kept as
the rational value here. -/
def get_peer_rankings (fetch : String → String → Option (List FrameRow))
    (metric : String) (top_n : Nat) :
    Except String (List (String × ℚ × String)) :=
  match List.lookup metric key_metrics with
  | none => .error ("Unsupported metric: " ++ metric)
  | some (tag, unit) =>
    match fetch tag unit with
    | none => .ok []
    | some rows =>
      if rows.isEmpty then .ok []
      else .ok ((nlargest top_n rows).map (fun r => (r.entityName, r.val, r.cik)))

/-! ## `BalanceSheetTemplate`  (src/templates/balance_sheet_template.py)

The template's `__init__` defines exactly four instance attributes:
`assets`, `liabilities`, `equity` (nested illustrative grouping dicts)
and `concept_map` (the tag → template-path mapping used by
`get_path_for_concept`).  It defines **no** attribute named
`ASSETS_MAPPING`, `LIABILITIES_MAPPING` or `EQUITY_MAPPING` — the names
`BalanceSheetProcessor` dereferences. -/

def balanceSheetTemplateAttrNames : List String :=
  ["assets", "liabilities", "equity", "concept_map"]

/-- `self.concept_map` transcribed from lines 51-89. -/
def concept_map : List (String × List String) :=
  [("Assets", ["assets"]),
   ("AssetsCurrent", ["assets", "current_assets"]),
   ("CashAndCashEquivalentsAtCarryingValue",
     ["assets", "current_assets", "cash_and_equivalents"]),
   ("ShortTermInvestments",
     ["assets", "current_assets", "short_term_investments"]),
   ("AccountsReceivableNet",
     ["assets", "current_assets", "accounts_receivable"]),
   ("InventoryNet", ["assets", "current_assets", "inventory"]),
   ("PrepaidExpense", ["assets", "current_assets", "prepaid_expenses"]),
   ("OtherAssetsCurrent",
     ["assets", "current_assets", "other_current_assets"]),
   ("AssetsNoncurrent", ["assets", "non_current_assets"]),
   ("LongTermInvestments",
     ["assets", "non_current_assets", "long_term_investments"]),
   ("PropertyPlantAndEquipmentNet",
     ["assets", "non_current_assets", "property_plant_equipment"]),
   ("IntangibleAssetsNet",
     ["assets", "non_current_assets", "intangible_assets"]),
   ("Goodwill", ["assets", "non_current_assets", "goodwill"]),
   ("OtherAssetsNoncurrent",
     ["assets", "non_current_assets", "other_non_current_assets"]),
   ("Liabilities", ["liabilities"]),
   ("LiabilitiesCurrent", ["liabilities", "current_liabilities"]),
   ("AccountsPayableCurrent",
     ["liabilities", "current_liabilities", "accounts_payable"]),
   ("ShortTermBorrowings",
     ["liabilities", "current_liabilities", "short_term_debt"]),
   ("AccruedLiabilitiesCurrent",
     ["liabilities", "current_liabilities", "accrued_expenses"]),
   ("DeferredRevenueCurrent",
     ["liabilities", "current_liabilities", "deferred_revenue"]),
   ("OtherLiabilitiesCurrent",
     ["liabilities", "current_liabilities", "other_current_liabilities"]),
   ("LiabilitiesNoncurrent", ["liabilities", "non_current_liabilities"]),
   ("LongTermDebt",
     ["liabilities", "non_current_liabilities", "long_term_debt"]),
   ("DeferredTaxLiabilitiesNoncurrent",
     ["liabilities", "non_current_liabilities", "deferred_tax_liabilities"]),
   ("PensionAndOtherPostretirementBenefitPlansLiabilities",
     ["liabilities", "non_current_liabilities", "pension_obligations"]),
   ("OtherLiabilitiesNoncurrent",
     ["liabilities", "non_current_liabilities",
      "other_non_current_liabilities"]),
   ("StockholdersEquity", ["equity"]),
   ("CommonStockValue", ["equity", "common_stock"]),
   ("AdditionalPaidInCapital", ["equity", "additional_paid_in_capital"]),
   ("RetainedEarningsAccumulatedDeficit", ["equity", "retained_earnings"]),
   ("TreasuryStockValue", ["equity", "treasury_stock"]),
   ("AccumulatedOtherComprehensiveIncomeLossNetOfTax",
     ["equity", "accumulated_other_comprehensive_income"]),
   ("MinorityInterest", ["equity", "non_controlling_interest"])]

/-- `BalanceSheetTemplate.get_path_for_concept`:
`self.concept_map.get(concept, [])`. -/
def get_path_for_concept (concept : String) : List String :=
  (List.lookup concept concept_map).getD []

/-- The flat tag → canonical-name mapping attributes the processor asks
the template for (`ASSETS_MAPPING`, `LIABILITIES_MAPPING`,
`EQUITY_MAPPING`).  The class defines only the attributes listed in
`balanceSheetTemplateAttrNames`, none of which has such a name, so this
table is empty and every such attribute access raises
`AttributeError`. -/
def balanceSheetTemplateFlatMappings :
    List (String × List (String × String)) := []

/-! ## `BalanceSheetProcessor`  (src/processors/balance_sheet_processor.py)

Exceptions are two kinds: `ProcessingError` (raised deliberately, caught
by `except ProcessingError` and re-raised unchanged) and any other
exception (here only `AttributeError` from the missing template
attributes), caught by the generic `except Exception` branch and wrapped
into `ProcessingError(f"Failed to process balance sheet: {str(e)}")`.

Company facts are an association list taxonomy → (tag → fact data); a
fact's `units` dict maps a unit name to its record list, each record
carrying at least the `end` date and numeric `val` used by the processor
(SEC records carry further fields — `filed`, `form`, `fy`, `fp`,
`accn` — that the processor never reads). -/

inductive PyExc where
  | processingError (msg : String)
  | attributeError (msg : String)
  deriving DecidableEq

structure FactUnitRec where
  endDate : String
  val : ℚ
  deriving DecidableEq

structure FactTag where
  units : List (String × List FactUnitRec)
  deriving DecidableEq

/-- `getattr(self.template, name)` for a mapping-valued attribute:
`AttributeError` (CPython's message format) when the class does not
define the name. -/
def templateMappingAttr (name : String) :
    Except PyExc (List (String × String)) :=
  match List.lookup name balanceSheetTemplateFlatMappings with
  | some m => .ok m
  | none =>
    .error (.attributeError
      ("'BalanceSheetTemplate' object has no attribute '" ++ name ++ "'"))

/-- The membership test of lines 41-43, with Python's `or`
short-circuiting: `self.template.ASSETS_MAPPING` is dereferenced first,
the other two only when the earlier tests are false. -/
def tagInBalanceSheetMappings (tag : String) : Except PyExc Bool := do
  let am ← templateMappingAttr "ASSETS_MAPPING"
  if am.any (fun p => p.1 = tag) then
    pure true
  else do
    let lm ← templateMappingAttr "LIABILITIES_MAPPING"
    if lm.any (fun p => p.1 = tag) then
      pure true
    else do
      let em ← templateMappingAttr "EQUITY_MAPPING"
      pure (em.any (fun p => p.1 = tag))

/-- The `for tag, data in facts['us-gaap'].items()` loop of lines 40-50:
keep the USD record list of every mapped tag whose frame is non-empty. -/
def extract_bs_items :
    List (String × FactTag) → Except PyExc (List (String × List FactUnitRec))
  | [] => .ok []
  | (tag, data) :: rest => do
    let inMap ← tagInBalanceSheetMappings tag
    let acc ←
      (if inMap then
        match List.lookup "USD" data.units with
        | some recs => pure (if recs.isEmpty then none else some (tag, recs))
        | none => pure none
      else pure none)
    let restItems ← extract_bs_items rest
    match acc with
    | some item => pure (item :: restItems)
    | none => pure restItems

/-- A DataFrame modeled as an ordered association list column-name →
cells; cells are numbers, strings or missing (`NaN`/`NaT`).  All columns
of one frame have the same length. -/
inductive Cell where
  | num (q : ℚ)
  | str (s : String)
  | na
  deriving DecidableEq

abbrev DF : Type := List (String × List Cell)

/-- The successive `pd.merge(df, tag_df, on='end', how='outer')` of
lines 56-64: the row index is the union of period-end dates in order of
first appearance; a tag column holds a tag's value at each date or `na`
(assumes, like the claims' inputs, one record per end date). -/
def unionEnds (items : List (String × List FactUnitRec)) : List String :=
  items.foldl
    (fun ends item =>
      item.2.foldl
        (fun es r => if es.contains r.endDate then es else es ++ [r.endDate])
        ends) []

def seriesAt (recs : List FactUnitRec) (e : String) : Cell :=
  match recs.find? (fun r => r.endDate = e) with
  | some r => .num r.val
  | none => .na

def mergeTagSeries (items : List (String × List FactUnitRec)) : DF :=
  let ends := unionEnds items
  ("end", ends.map Cell.str) ::
    items.map (fun item => (item.1, ends.map (seriesAt item.2)))

/-- `BaseProcessor.process_dates` converts date-named columns with
`pd.to_datetime`; dates stay strings in this cell model (no claim
observes the datetime type). -/
def process_dates (df : DF) : DF := df

def dfHasCol (df : DF) (name : String) : Bool :=
  df.any (fun c => c.1 = name)

def dfCol (df : DF) (name : String) : List Cell :=
  (List.lookup name df).getD []

/-- `BaseProcessor.standardize_line_items` (base_processor.py lines
94-121): for each `(sec_tag, standard_name)` of the mapping, copy the
tag's column under the standard name when present, else log and skip. -/
def standardize_line_items (df : DF) (mapping : List (String × String)) : DF :=
  mapping.foldl
    (fun acc p =>
      if dfHasCol df p.1 then dictInsert acc p.2 (dfCol df p.1) else acc) []

/-- `pd.concat([...], axis=1)`. -/
def concatColumns (dfs : List DF) : DF := dfs.foldl (fun acc d => acc ++ d) []

/-- `BaseProcessor.validate_required_fields` (base_processor.py lines
123-140). -/
def validate_required_fields (df : DF) (required : List String) :
    Except PyExc Unit :=
  let missing := required.filter (fun f => !dfHasCol df f)
  if missing.isEmpty then .ok ()
  else .error (.processingError
    ("Missing required fields: " ++ pyCommaJoin missing))

def required_fields : List String :=
  ["Total Assets", "Total Liabilities", "Total Stockholders Equity"]

def cellSub : Cell → Cell → Cell
  | .num a, .num b => .num (a - b)
  | _, _ => .na

def cellAdd : Cell → Cell → Cell
  | .num a, .num b => .num (a + b)
  | _, _ => .na

def cellDiv : Cell → Cell → Cell
  | .num a, .num b => if b = 0 then .na else .num (a / b)
  | _, _ => .na

def colZip (f : Cell → Cell → Cell) (a b : List Cell) : List Cell :=
  List.zipWith f a b

/-- `BalanceSheetProcessor._calculate_derived_fields` (lines 96-115):
each derived column is added only when both inputs are present. -/
def calculate_derived_fields (df : DF) : DF :=
  let df :=
    if dfHasCol df "Total Current Assets" &&
        dfHasCol df "Total Current Liabilities" then
      dictInsert df "Working Capital"
        (colZip cellSub (dfCol df "Total Current Assets")
          (dfCol df "Total Current Liabilities"))
    else df
  let df :=
    if dfHasCol df "Total Current Assets" &&
        dfHasCol df "Total Non Current Assets" then
      dictInsert df "Total Assets (Calculated)"
        (colZip cellAdd (dfCol df "Total Current Assets")
          (dfCol df "Total Non Current Assets"))
    else df
  if dfHasCol df "Total Liabilities" &&
      dfHasCol df "Total Stockholders Equity" then
    dictInsert df "Debt to Equity Ratio"
      (colZip cellDiv (dfCol df "Total Liabilities")
        (dfCol df "Total Stockholders Equity"))
  else df

/-- The body of the `try` block of `process_company_facts`
(lines 34-87). -/
def process_company_facts_core
    (facts : List (String × List (String × FactTag))) : Except PyExc DF := do
  match List.lookup "us-gaap" facts with
  | none => throw (.processingError "No US GAAP data found in company facts")
  | some usgaap => do
    let bs_items ← extract_bs_items usgaap
    if bs_items.isEmpty then
      throw (.processingError "No balance sheet data found")
    else do
      let df := process_dates (mergeTagSeries bs_items)
      let am ← templateMappingAttr "ASSETS_MAPPING"
      let lm ← templateMappingAttr "LIABILITIES_MAPPING"
      let em ← templateMappingAttr "EQUITY_MAPPING"
      let result := concatColumns
        [standardize_line_items df am,
         standardize_line_items df lm,
         standardize_line_items df em]
      let result :=
        if dfHasCol df "end" then
          dictInsert result "period_end_date" (dfCol df "end")
        else result
      let _ ← validate_required_fields result required_fields
      pure (calculate_derived_fields result)

/-- `BalanceSheetProcessor.process_company_facts` with its
`except` clauses: a `ProcessingError` is re-raised unchanged, any other
exception is wrapped as
`ProcessingError(f"Failed to process balance sheet: {str(e)}")`.
`.error msg` is the `ProcessingError` message reaching the caller. -/
def process_company_facts (facts : List (String × List (String × FactTag))) :
    Except String DF :=
  match process_company_facts_core facts with
  | .ok df => .ok df
  | .error (.processingError m) => .error m
  | .error (.attributeError m) =>
    .error ("Failed to process balance sheet: " ++ m)

/-! ## Theorems -/

/-! ### `_make_request` helper lemmas -/

theorem make_request_go_attempts_le (d : Nat) (net : Nat → AttemptOutcome) :
    ∀ rem attempt, (make_request_go d net attempt rem).attempts ≤ rem := by
  intro rem
  induction rem with
  | zero => intro attempt; simp [make_request_go]
  | succ r ih =>
    intro attempt
    simp only [make_request_go]
    cases hnet : net attempt with
    | ok v => simp
    | tooMany =>
      by_cases hr : r = 0
      · simp [hr]
      · have := ih (attempt + 1)
        simp only [if_neg hr]
        omega
    | transportErr m =>
      by_cases hr : r = 0
      · simp [hr]
      · have := ih (attempt + 1)
        simp only [if_neg hr]
        omega

theorem make_request_go_first_success (d : Nat) (net : Nat → AttemptOutcome) :
    ∀ rem attempt k v, k < rem →
      (∀ j, j < k → attemptOk (net (attempt + j)) = false) →
      net (attempt + k) = .ok v →
      (make_request_go d net attempt rem).result = .success v ∧
      (make_request_go d net attempt rem).attempts = k + 1 := by
  intro rem
  induction rem with
  | zero => intro _ k _ hk _ _; exact absurd hk (Nat.not_lt_zero k)
  | succ r ih =>
    intro attempt k v hk hfail hok
    cases k with
    | zero =>
      have h0 : net attempt = .ok v := by simpa using hok
      simp [make_request_go, h0]
    | succ k' =>
      have hn0 : attemptOk (net attempt) = false := by
        simpa using hfail 0 (Nat.succ_pos k')
      have hr : ¬r = 0 := by omega
      have hfail' : ∀ j, j < k' → attemptOk (net (attempt + 1 + j)) = false := by
        intro j hj
        have := hfail (j + 1) (by omega)
        have e : attempt + (j + 1) = attempt + 1 + j := by omega
        rwa [e] at this
      have hok' : net (attempt + 1 + k') = .ok v := by
        have e : attempt + (k' + 1) = attempt + 1 + k' := by omega
        rwa [e] at hok
      have hrec := ih (attempt + 1) k' v (by omega) hfail' hok'
      cases hnet : net attempt with
      | ok w => simp [attemptOk, hnet] at hn0
      | tooMany =>
        refine ⟨?_, ?_⟩
        · simpa [make_request_go, hnet, hr] using hrec.1
        · simp [make_request_go, hnet, hr, hrec.2]
      | transportErr m =>
        refine ⟨?_, ?_⟩
        · simpa [make_request_go, hnet, hr] using hrec.1
        · simp [make_request_go, hnet, hr, hrec.2]

theorem make_request_go_all_fail (d : Nat) (net : Nat → AttemptOutcome) :
    ∀ rem attempt, 1 ≤ rem →
      (∀ j, j < rem → attemptOk (net (attempt + j)) = false) →
      (make_request_go d net attempt rem).sleeps =
        (List.range (rem - 1)).map
          (fun i => if net (attempt + i) = .tooMany then d * (attempt + i + 1)
            else d) ∧
      (net (attempt + (rem - 1)) = .tooMany →
        (make_request_go d net attempt rem).result = .rateLimitErr) ∧
      (∀ m, net (attempt + (rem - 1)) = .transportErr m →
        (make_request_go d net attempt rem).result =
          .dataErr ("Failed to retrieve SEC data: " ++ m)) := by
  intro rem
  induction rem with
  | zero => intro _ h; exact absurd h (by omega)
  | succ r ih =>
    intro attempt _ hfail
    have hn0 : attemptOk (net attempt) = false := by
      simpa using hfail 0 (by omega)
    by_cases hr : r = 0
    · subst hr
      cases hnet : net attempt with
      | ok w => simp [attemptOk, hnet] at hn0
      | tooMany =>
        refine ⟨by simp [make_request_go, hnet], fun _ => by
          simp [make_request_go, hnet], fun m hm => ?_⟩
        rw [show attempt + (1 - 1) = attempt from by omega, hnet] at hm
        exact absurd hm (by simp)
      | transportErr msg =>
        refine ⟨by simp [make_request_go, hnet], fun hm => ?_, fun m hm => ?_⟩
        · rw [show attempt + (1 - 1) = attempt from by omega, hnet] at hm
          exact absurd hm (by simp)
        · rw [show attempt + (1 - 1) = attempt from by omega, hnet] at hm
          cases hm
          simp [make_request_go, hnet]
    · have hfail' : ∀ j, j < r → attemptOk (net (attempt + 1 + j)) = false := by
        intro j hj
        have := hfail (j + 1) (by omega)
        have e : attempt + (j + 1) = attempt + 1 + j := by omega
        rwa [e] at this
      have hrec := ih (attempt + 1) (by omega) hfail'
      have efin : attempt + (r + 1 - 1) = attempt + 1 + (r - 1) := by omega
      cases hnet : net attempt with
      | ok w => simp [attemptOk, hnet] at hn0
      | tooMany =>
        refine ⟨?_, fun hm => ?_, fun m hm => ?_⟩
        · simp only [make_request_go, hnet, if_neg hr]
          rw [hrec.1]
          obtain ⟨r', rfl⟩ : ∃ r', r = r' + 1 := ⟨r - 1, by omega⟩
          simp only [Nat.add_sub_cancel]
          rw [List.range_succ_eq_map, List.map_cons, List.map_map]
          refine congrArg₂ _ (by simp [hnet]) ?_
          refine List.map_congr_left (fun a _ => ?_)
          simp only [Function.comp]
          rw [show attempt + 1 + a = attempt + (a + 1) from by omega]
        · rw [efin] at hm
          simp only [make_request_go, hnet, if_neg hr]
          exact hrec.2.1 hm
        · rw [efin] at hm
          simp only [make_request_go, hnet, if_neg hr]
          exact hrec.2.2 m hm
      | transportErr msg =>
        refine ⟨?_, fun hm => ?_, fun m hm => ?_⟩
        · simp only [make_request_go, hnet, if_neg hr]
          rw [hrec.1]
          obtain ⟨r', rfl⟩ : ∃ r', r = r' + 1 := ⟨r - 1, by omega⟩
          simp only [Nat.add_sub_cancel]
          rw [List.range_succ_eq_map, List.map_cons, List.map_map]
          refine congrArg₂ _ (by simp [hnet]) ?_
          refine List.map_congr_left (fun a _ => ?_)
          simp only [Function.comp]
          rw [show attempt + 1 + a = attempt + (a + 1) from by omega]
        · rw [efin] at hm
          simp only [make_request_go, hnet, if_neg hr]
          exact hrec.2.1 hm
        · rw [efin] at hm
          simp only [make_request_go, hnet, if_neg hr]
          exact hrec.2.2 m hm

/-- C6: `_make_request` performs at most `max_retries` attempts and
returns the first successful parsed response; a 429 outcome on any
attempt but the last is retried after `retry_delay * attempt_number`
(linear backoff, 1-based attempt number) and propagates as the
rate-limit error when it is the final attempt's outcome; any other
transport failure is retried after a flat `retry_delay` and wraps into
the data-error kind on the final attempt. -/
theorem C6_make_request_retry_policy (d : Nat) (net : Nat → AttemptOutcome)
    (n : Nat) :
    (make_request d net n).attempts ≤ n ∧
    (∀ k v, k < n → (∀ j, j < k → attemptOk (net j) = false) →
      net k = .ok v →
      (make_request d net n).result = .success v ∧
      (make_request d net n).attempts = k + 1) ∧
    (1 ≤ n → (∀ j, j < n → attemptOk (net j) = false) →
      (make_request d net n).sleeps =
        (List.range (n - 1)).map
          (fun i => if net i = .tooMany then d * (i + 1) else d) ∧
      (net (n - 1) = .tooMany →
        (make_request d net n).result = .rateLimitErr) ∧
      (∀ m, net (n - 1) = .transportErr m →
        (make_request d net n).result =
          .dataErr ("Failed to retrieve SEC data: " ++ m))) := by
  refine ⟨make_request_go_attempts_le d net n 0, ?_, ?_⟩
  · intro k v hk hfail hok
    exact make_request_go_first_success d net n 0 k v hk
      (fun j hj => by simpa using hfail j hj) (by simpa using hok)
  · intro hn hfail
    have h := make_request_go_all_fail d net n 0 hn
      (fun j hj => by simpa using hfail j hj)
    refine ⟨?_, fun hm => ?_, fun m hm => ?_⟩
    · rw [make_request, h.1]
      exact List.map_congr_left (fun a _ => by simp)
    · exact h.2.1 (by simpa using hm)
    · exact h.2.2 m (by simpa using hm)

/-- Witness for C6 at concrete runs: a 429 then a transport failure then
a success (success returned, three attempts, backoff then flat sleep),
and an all-failure run ending in a transport error (flat first sleep,
wrapped data error). -/
theorem C6_make_request_retry_policy_witness :
    (make_request 2 (fun k => if k = 0 then .tooMany
      else if k = 1 then .transportErr "boom" else .ok 7) 3).result =
        .success 7 ∧
    (make_request 2 (fun k => if k = 0 then .tooMany
      else if k = 1 then .transportErr "boom" else .ok 7) 3).attempts = 3 ∧
    (make_request 2 (fun k => if k = 0 then .tooMany
      else if k = 1 then .transportErr "boom" else .ok 7) 3).sleeps =
        [2, 2] ∧
    (make_request 2 (fun k => if k = 0 then .tooMany
      else .transportErr "x") 2).sleeps = [2] ∧
    (make_request 2 (fun k => if k = 0 then .tooMany
      else .transportErr "x") 2).result =
        .dataErr "Failed to retrieve SEC data: x" := by
  have h1 := (C6_make_request_retry_policy 2
    (fun k => if k = 0 then .tooMany
      else if k = 1 then .transportErr "boom" else .ok 7) 3).2.1 2 7
    (by decide) (by decide) (by decide)
  have h2 := (C6_make_request_retry_policy 2
    (fun k => if k = 0 then .tooMany else .transportErr "x") 2).2.2
    (by decide) (by decide)
  exact ⟨h1.1, h1.2, by decide, h2.1.trans (by decide),
    h2.2.2 "x" (by decide)⟩

/-- C10: with a non-positive retry budget the loop body never runs and
`_make_request` falls through returning Python `None`; with at least one
allowed attempt every run ends in a parsed response, the rate-limit
error or the data error — never `None`. -/
theorem C10_make_request_zero_retries (d : Nat) (net : Nat → AttemptOutcome)
    (n : Nat) (hn : 1 ≤ n) :
    (make_request d net 0).result = .pyNone ∧
    (make_request d net n).result ≠ .pyNone := by
  constructor
  · rfl
  · have go_ne : ∀ rem attempt, 1 ≤ rem →
        (make_request_go d net attempt rem).result ≠ .pyNone := by
      intro rem
      induction rem with
      | zero => intro _ h; exact absurd h (by omega)
      | succ r ih =>
        intro attempt _
        simp only [make_request_go]
        cases hnet : net attempt with
        | ok v => simp
        | tooMany =>
          by_cases hr : r = 0
          · simp [hr]
          · simpa [hr] using ih (attempt + 1) (by omega)
        | transportErr m =>
          by_cases hr : r = 0
          · simp [hr]
          · simpa [hr] using ih (attempt + 1) (by omega)
    exact go_ne n 0 hn

/-- Witness for C10 at `max_retries = 0` and `max_retries = 3`. -/
theorem C10_make_request_zero_retries_witness :
    (make_request 1 (fun _ => .tooMany) 0).result = .pyNone ∧
    (make_request 1 (fun _ => .tooMany) 3).result ≠ .pyNone :=
  C10_make_request_zero_retries 1 (fun _ => .tooMany) 3 (by decide)

/-- C3 counterexample: `get_frames` with `quarter = 0` does not raise
`ValueError` — `0` is falsy, so validation is skipped and the call
proceeds to the network with the annual period `CY2023`. -/
theorem C3_quarter_zero_counterexample :
    get_frames "us-gaap" "Assets" "USD" 2023 (some 0) false =
      .request
        "https://data.sec.gov/api/xbrl/frames/us-gaap/Assets/USD/CY2023.json" ∧
    get_frames "us-gaap" "Assets" "USD" 2023 (some 0) false ≠
      .valueError "Quarter must be between 1 and 4" := by
  constructor
  · rfl
  · intro h
    exact FramesCall.noConfusion h

/-- C3 amended: for every *nonzero* integer quarter outside 1..4,
`get_frames` raises `ValueError` before any network request; a zero
quarter is falsy and is treated exactly as if no quarter were given
(annual period, request proceeds). -/
theorem C3_get_frames_quarter_validation (taxonomy tag unit : String)
    (year : Int) (q : Int) (instantaneous : Bool) (hq : q ≠ 0)
    (hrange : ¬(1 ≤ q ∧ q ≤ 4)) :
    get_frames taxonomy tag unit year (some q) instantaneous =
      .valueError "Quarter must be between 1 and 4" ∧
    get_frames taxonomy tag unit year (some 0) instantaneous =
      get_frames taxonomy tag unit year none instantaneous := by
  constructor
  · unfold get_frames
    rw [if_pos]
    exact ⟨by simp [quarterTruthy, hq], by simpa using hrange⟩
  · simp [get_frames, quarterTruthy]

/-- Witness for C3 amended at `quarter = 5`. -/
theorem C3_get_frames_quarter_validation_witness :
    get_frames "us-gaap" "Assets" "USD" 2023 (some 5) false =
      .valueError "Quarter must be between 1 and 4" ∧
    get_frames "us-gaap" "Assets" "USD" 2023 (some 0) false =
      get_frames "us-gaap" "Assets" "USD" 2023 none false :=
  C3_get_frames_quarter_validation "us-gaap" "Assets" "USD" 2023 5 false
    (by decide) (by decide)

/-! ### `_validate_cik` helper lemmas -/

theorem dropWhile_head_false {α : Type} (p : α → Bool) :
    ∀ (l : List α) (c : α) (cs : List α),
      l.dropWhile p = c :: cs → p c = false := by
  intro l
  induction l with
  | nil => intro c cs h; simp [List.dropWhile] at h
  | cons a t ih =>
    intro c cs h
    by_cases hp : p a
    · rw [List.dropWhile_cons_of_pos hp] at h
      exact ih c cs h
    · rw [List.dropWhile_cons_of_neg hp] at h
      cases h
      simpa using hp

theorem dropWhile_eq_self_of_all {α : Type} (p : α → Bool) :
    ∀ l : List α, (∀ c ∈ l, p c = false) → l.dropWhile p = l := by
  intro l h
  cases l with
  | nil => rfl
  | cons a t => exact List.dropWhile_cons_of_neg (by simp [h a (by simp)])

theorem stripChars_eq_self_of_all {l : List Char}
    (h : ∀ c ∈ l, isPyWhitespace c = false) : stripChars l = l := by
  unfold stripChars
  rw [dropWhile_eq_self_of_all _ l h,
    dropWhile_eq_self_of_all _ l.reverse (fun c hc => h c (by simpa using hc)),
    List.reverse_reverse]

theorem digit_not_pyWhitespace (c : Char) (h : c.isDigit = true) :
    isPyWhitespace c = false := by
  by_contra hw
  rw [Bool.not_eq_false] at hw
  unfold isPyWhitespace at hw
  simp only [Bool.or_eq_true, decide_eq_true_eq] at hw
  rcases hw with ((((rfl | rfl) | rfl) | rfl) | rfl) | rfl <;>
    exact absurd h (by decide)

theorem dropWhile_zero_replicate_append (k : Nat) (t : List Char) :
    (List.replicate k '0' ++ t).dropWhile (fun c => c == '0') =
      t.dropWhile (fun c => c == '0') := by
  induction k with
  | zero => rfl
  | succ n ih =>
    rw [List.replicate_succ, List.cons_append,
      List.dropWhile_cons_of_pos (by decide)]
    exact ih

theorem lstripZero_replicate_append (k : Nat) (t : List Char) :
    lstripZeroChars (List.replicate k '0' ++ t) = lstripZeroChars t := by
  unfold lstripZeroChars
  exact dropWhile_zero_replicate_append k t

theorem lstripZero_cons_of_ne (c : Char) (cs : List Char)
    (h : (c == '0') = false) : lstripZeroChars (c :: cs) = c :: cs := by
  unfold lstripZeroChars
  exact List.dropWhile_cons_of_neg (by simp [h])

/-- If `_validate_cik` succeeds, its result is a fixed point. -/
theorem validate_cik_fixed {s r : String} (h : validate_cik s = some r) :
    validate_cik r = some r := by
  unfold validate_cik at h
  split at h
  case isFalse => exact absurd h (by simp)
  case isTrue hd =>
    have hr : r = String.mk (zfillChars 10
        (lstripZeroChars (stripChars s.toList))) := by
      cases h
      rfl
    have hdig : ∀ c ∈ lstripZeroChars (stripChars s.toList),
        c.isDigit = true := by
      unfold isdigitChars at hd
      simp only [Bool.and_eq_true, List.all_eq_true] at hd
      exact hd.2
    have hne : lstripZeroChars (stripChars s.toList) ≠ [] := by
      unfold isdigitChars at hd
      simp only [Bool.and_eq_true] at hd
      intro e
      rw [e] at hd
      simpa using hd.1
    obtain ⟨c, cs, hcons⟩ := List.exists_cons_of_ne_nil hne
    have hc0 : (c == '0') = false :=
      dropWhile_head_false (fun x => x == '0') (stripChars s.toList) c cs hcons
    have hrl : r.toList =
        List.replicate (10 - (lstripZeroChars (stripChars s.toList)).length)
          '0' ++ lstripZeroChars (stripChars s.toList) := by
      rw [hr]
      rfl
    have halldig : ∀ a ∈ r.toList, a.isDigit = true := by
      intro a ha
      rw [hrl] at ha
      rcases List.mem_append.mp ha with hrep | hmem
      · rw [List.eq_of_mem_replicate hrep]
        decide
      · exact hdig a hmem
    have hstrip : stripChars r.toList = r.toList :=
      stripChars_eq_self_of_all
        (fun a ha => digit_not_pyWhitespace a (halldig a ha))
    have hlstrip : lstripZeroChars (stripChars r.toList) = c :: cs := by
      rw [hstrip, hrl, hcons, lstripZero_replicate_append,
        lstripZero_cons_of_ne c cs hc0]
    have hd2 : isdigitChars (c :: cs) = true := by
      rw [← hcons]
      exact hd
    unfold validate_cik
    rw [hlstrip, if_pos hd2, hr, hcons]

/-- C5 counterexample: `" 28917"` contains a non-digit character (the
leading space), yet `_validate_cik` succeeds on it — `str.strip()` runs
before the digit check, so surrounding whitespace is tolerated, not
rejected. -/
theorem C5_whitespace_counterexample :
    (" 28917".toList.any (fun c => !c.isDigit)) = true ∧
    validate_cik " 28917" = some "0000028917" := by
  constructor <;> decide

/-- C5 amended: `_validate_cik` is idempotent (composing it with itself
via `Option.bind` changes nothing, for every input string, in particular
for every numeric one); `"28917"` and `"0000028917"` both normalize to
`"0000028917"`; and every string that still contains a non-digit
character *after stripping leading/trailing whitespace* is rejected with
`ValueError` (surrounding whitespace itself is stripped, not
rejected). -/
theorem C5_validate_cik_normalization (s : String) :
    (validate_cik s).bind validate_cik = validate_cik s ∧
    validate_cik "28917" = some "0000028917" ∧
    validate_cik "0000028917" = some "0000028917" ∧
    ((∃ c ∈ stripChars s.toList, c.isDigit = false) →
      validate_cik s = none) := by
  refine ⟨?_, by decide, by decide, ?_⟩
  · cases h : validate_cik s with
    | none => rfl
    | some r => simpa [Option.bind] using validate_cik_fixed h
  · rintro ⟨c, hc, hcd⟩
    suffices hsf : isdigitChars (lstripZeroChars (stripChars s.toList)) =
        false by
      unfold validate_cik
      rw [hsf]
      rfl
    have hct : c ∈ lstripZeroChars (stripChars s.toList) := by
      unfold lstripZeroChars
      have hsplit := List.takeWhile_append_dropWhile
        (p := fun c => c == '0') (l := stripChars s.toList)
      rw [← hsplit] at hc
      rcases List.mem_append.mp hc with htk | hdr
      · have := List.mem_takeWhile_imp htk
        simp only [beq_iff_eq] at this
        subst this
        exact absurd hcd (by decide)
      · exact hdr
    have hall : (lstripZeroChars (stripChars s.toList)).all
        (fun c => c.isDigit) = false := by
      rw [← Bool.not_eq_true, List.all_eq_true]
      intro hf
      exact absurd (hf c hct) (by simp [hcd])
    unfold isdigitChars
    rw [hall, Bool.and_false]

/-- Witness for C5 amended at `"12a"` (rejected: contains a non-digit
after stripping) and the closed normalization equalities. -/
theorem C5_validate_cik_normalization_witness :
    validate_cik "12a" = none ∧
    validate_cik "28917" = some "0000028917" ∧
    validate_cik "0000028917" = some "0000028917" :=
  ⟨(C5_validate_cik_normalization "12a").2.2.2 (by decide),
   (C5_validate_cik_normalization "12a").2.1,
   (C5_validate_cik_normalization "12a").2.2.1⟩

/-! ### `clear_cache` helper lemmas -/

theorem clear_cache_loop_truthy (p : String) :
    ∀ files : List CacheFile,
      clear_cache_loop true p files =
        (files.filter (fun f => !cacheFileMatches p f),
         (files.filter (fun f => cacheFileMatches p f)).length) := by
  intro files
  induction files with
  | nil => rfl
  | cons f rest ih =>
    cases hc : f.content with
    | corrupt =>
      have hm : cacheFileMatches p f = false := by
        unfold cacheFileMatches
        rw [hc]
      simp [clear_cache_loop, hc, ih, List.filter_cons, hm]
    | valid key =>
      have hm : cacheFileMatches p f =
          listContainsSub p.toList key.toList := by
        unfold cacheFileMatches
        rw [hc]
      by_cases hsub : listContainsSub p.toList key.toList = true
      · have hsub2 : listContainsSub p.data key.data = true := hsub
        simp [clear_cache_loop, hc, ih, List.filter_cons, hm, hsub, hsub2]
      · rw [Bool.not_eq_true] at hsub
        have hsub2 : listContainsSub p.data key.data = false := hsub
        simp [clear_cache_loop, hc, ih, List.filter_cons, hm, hsub, hsub2]

theorem clear_cache_loop_falsy (pt : Bool) (p : String) (hpt : pt = false) :
    ∀ files : List CacheFile,
      clear_cache_loop pt p files = ([], files.length) := by
  subst hpt
  intro files
  induction files with
  | nil => rfl
  | cons f rest ih => simp [clear_cache_loop, ih]

/-- C7 counterexample: with the *empty-string* pattern, `if pattern:` is
falsy, so `clear_cache` takes the unconditional-delete branch: a corrupt
cache file is deleted and counted, although the claim says a corrupt
file encountered under a given pattern is skipped and not deleted. -/
theorem C7_empty_pattern_counterexample :
    clear_cache true [⟨"deadbeef.json", .corrupt⟩] (some "") = ([], 1) := by
  decide

/-- C7 amended: for every *non-empty* pattern, `clear_cache` deletes
exactly the readable cache files whose stored `cache_key` contains the
pattern as a substring, keeps every other file — corrupt files are
skipped with a warning, never deleted, and never fail the call — and
returns the number of deleted files; with no pattern (and likewise with
the falsy empty-string pattern) it deletes every file, corrupt ones
included, and returns their count. -/
theorem C7_clear_cache_pattern (files : List CacheFile) (p : String)
    (hp : p ≠ "") :
    clear_cache true files (some p) =
      (files.filter (fun f => !cacheFileMatches p f),
       (files.filter (fun f => cacheFileMatches p f)).length) ∧
    clear_cache true files none = ([], files.length) := by
  constructor
  · have ht : patternTruthy (some p) = true := by
      simp [patternTruthy]
      exact hp
    unfold clear_cache
    rw [ht]
    simpa using clear_cache_loop_truthy p files
  · unfold clear_cache
    exact clear_cache_loop_falsy (patternTruthy none) "" rfl files

/-- Witness for C7 amended: pattern `"facts"` deletes exactly the one
matching readable file, skips the corrupt file, and counts one deletion;
no pattern deletes all three. -/
theorem C7_clear_cache_pattern_witness :
    clear_cache true
      [⟨"a.json", .valid "get_company_facts_x"⟩, ⟨"b.json", .corrupt⟩,
       ⟨"c.json", .valid "get_frames_y"⟩] (some "facts") =
      ([⟨"b.json", .corrupt⟩, ⟨"c.json", .valid "get_frames_y"⟩], 1) ∧
    clear_cache true
      [⟨"a.json", .valid "get_company_facts_x"⟩, ⟨"b.json", .corrupt⟩,
       ⟨"c.json", .valid "get_frames_y"⟩] none = ([], 3) := by
  have h := C7_clear_cache_pattern
    [⟨"a.json", .valid "get_company_facts_x"⟩, ⟨"b.json", .corrupt⟩,
     ⟨"c.json", .valid "get_frames_y"⟩] "facts" (by decide)
  exact ⟨h.1.trans (by decide), h.2.trans (by decide)⟩

/-! ### Cache key (C4) -/

theorem append_middle_cancel {a s r1 r2 : List Char}
    (h : a ++ (r1 ++ s) = a ++ (r2 ++ s)) : r1 = r2 :=
  List.append_cancel_right (List.append_cancel_left h)

/-- C4: the cache key built by `cache_sec_response.wrapper` is *not* a
function of the callee name and the call's own arguments alone — it also
depends on the receiver instance's `repr` (which embeds the instance's
memory address), because `args[0]` is the bound instance.  Two identical
endpoint calls from instances with different reprs (two live instances,
or the same code across process restarts) always produce *different*
cache keys and therefore address different cache files. -/
theorem C4_cache_key_depends_on_instance (funcName : String)
    (args : List String) (kwargs : List (String × String))
    (r1 r2 : String) (h : r1 ≠ r2) :
    cache_key funcName r1 args kwargs ≠ cache_key funcName r2 args kwargs := by
  intro heq
  apply h
  have hdata : r1.data = r2.data → r1 = r2 := by
    intro hd
    cases r1
    cases r2
    exact congrArg String.mk hd
  apply hdata
  cases args with
  | nil =>
    have h2 := congrArg String.data heq
    simp only [cache_key, List.map_nil, pyTupleStr, String.data_append,
      List.append_assoc] at h2
    exact append_middle_cancel
      (List.append_cancel_left (List.append_cancel_left h2))
  | cons a as =>
    have h2 := congrArg String.data heq
    simp only [cache_key, List.map_cons, pyTupleStr, pyCommaJoin,
      String.data_append, List.append_assoc] at h2
    exact append_middle_cancel
      (List.append_cancel_left (List.append_cancel_left h2))

/-- Witness for C4: the same call
`get_company_submissions('320193')` from two client instances at
different memory addresses yields different cache keys. -/
theorem C4_cache_key_depends_on_instance_witness :
    cache_key "get_company_submissions"
        "<src.utils.sec_client.SECClient object at 0x7f93c0a1b2e0>"
        ["320193"] [] ≠
      cache_key "get_company_submissions"
        "<src.utils.sec_client.SECClient object at 0x7f93c0a1c510>"
        ["320193"] [] :=
  C4_cache_key_depends_on_instance "get_company_submissions" ["320193"] []
    "<src.utils.sec_client.SECClient object at 0x7f93c0a1b2e0>"
    "<src.utils.sec_client.SECClient object at 0x7f93c0a1c510>" (by decide)

/-- C2: `get_company_facts` is *not* cached — the class body's second,
undecorated definition (sec_client.py line 163) shadows the cached one
(line 142), so two successive calls with the same CIK on the same client
issue two network requests, not one.  The theorem evaluates the live
definition: attribute resolution yields the uncached variant, and each
call appends a request for the same URL. -/
theorem C2_get_company_facts_uncached (net : String → Nat) (cik c : String)
    (h : validate_cik cik = some c) :
    methodIsCached "get_company_facts" = false ∧
    get_company_facts net [] cik =
      some (net ("https://data.sec.gov/api/xbrl/companyfacts/CIK" ++ c ++
        ".json"),
        ["https://data.sec.gov/api/xbrl/companyfacts/CIK" ++ c ++ ".json"]) ∧
    get_company_facts net
        ["https://data.sec.gov/api/xbrl/companyfacts/CIK" ++ c ++ ".json"]
        cik =
      some (net ("https://data.sec.gov/api/xbrl/companyfacts/CIK" ++ c ++
        ".json"),
        ["https://data.sec.gov/api/xbrl/companyfacts/CIK" ++ c ++ ".json",
         "https://data.sec.gov/api/xbrl/companyfacts/CIK" ++ c ++ ".json"]) := by
  refine ⟨by decide, ?_, ?_⟩ <;> simp [get_company_facts, h]

/-- Witness for C2 at CIK `"320193"`: the second identical call performs
a second network request for the same URL. -/
theorem C2_get_company_facts_uncached_witness :
    methodIsCached "get_company_facts" = false ∧
    get_company_facts (fun _ => 7) [] "320193" =
      some (7, ["https://data.sec.gov/api/xbrl/companyfacts/CIK0000320193.json"]) ∧
    get_company_facts (fun _ => 7)
        ["https://data.sec.gov/api/xbrl/companyfacts/CIK0000320193.json"]
        "320193" =
      some (7,
        ["https://data.sec.gov/api/xbrl/companyfacts/CIK0000320193.json",
         "https://data.sec.gov/api/xbrl/companyfacts/CIK0000320193.json"]) :=
  C2_get_company_facts_uncached (fun _ => 7) "320193" "0000320193" (by decide)

/-- C1: the claimed behavior is unreachable — for *every* facts input
whose `us-gaap` section contains at least one tag (mapped or not), the
very first loop iteration dereferences the non-existent
`self.template.ASSETS_MAPPING` attribute, and the resulting
`AttributeError` is wrapped into
`ProcessingError("Failed to process balance sheet: ...")`.  The error
does not name "no data found", and no input with a non-empty `us-gaap`
section can succeed. -/
theorem C1_balance_sheet_attribute_error
    (facts : List (String × List (String × FactTag)))
    (usgaap : List (String × FactTag))
    (h : List.lookup "us-gaap" facts = some usgaap) (hne : usgaap ≠ []) :
    process_company_facts facts =
      .error ("Failed to process balance sheet: " ++
        "'BalanceSheetTemplate' object has no attribute 'ASSETS_MAPPING'") ∧
    strContainsSub "no data found"
      ("Failed to process balance sheet: " ++
        "'BalanceSheetTemplate' object has no attribute 'ASSETS_MAPPING'") =
      false := by
  refine ⟨?_, by decide⟩
  obtain ⟨⟨tag, data⟩, rest, rfl⟩ :
      ∃ td rest, usgaap = td :: rest := by
    cases usgaap with
    | nil => exact absurd rfl hne
    | cons td rest => exact ⟨td, rest, rfl⟩
  unfold process_company_facts process_company_facts_core
  rw [h]
  rfl

/-- Witness for C1 at a facts input holding a single unmapped tag with a
USD series: exactly the input the claim says must fail with "No balance
sheet data found", evaluated to the AttributeError wrapping instead. -/
theorem C1_balance_sheet_attribute_error_witness :
    process_company_facts
      [("us-gaap", [("FooTag", ⟨[("USD", [⟨"2023-12-31", 5⟩])]⟩)])] =
      .error ("Failed to process balance sheet: " ++
        "'BalanceSheetTemplate' object has no attribute 'ASSETS_MAPPING'") ∧
    strContainsSub "no data found"
      ("Failed to process balance sheet: " ++
        "'BalanceSheetTemplate' object has no attribute 'ASSETS_MAPPING'") =
      false :=
  C1_balance_sheet_attribute_error
    [("us-gaap", [("FooTag", ⟨[("USD", [⟨"2023-12-31", 5⟩])]⟩)])]
    [("FooTag", ⟨[("USD", [⟨"2023-12-31", 5⟩])]⟩)] rfl (by simp)

/-- C8 counterexample: requesting the unsupported metric
`"InvalidMetric"` from `get_industry_metrics` does *not* fail with an
invalid-argument error — the metric is logged with a warning, skipped,
and an ordinary (here empty) result dict is returned. -/
theorem C8_unsupported_metric_counterexample :
    get_industry_metrics (fun _ _ => some [⟨"0000001", "CompanyA", 5⟩])
      (some ["InvalidMetric"]) = [] ∧
    List.lookup "InvalidMetric" key_metrics = none := by
  constructor <;> rfl

/-- C8 amended: of the three metric-name entry points only
`get_peer_rankings` raises `ValueError` for a metric outside the fixed
registry; `get_industry_metrics` logs a warning and omits the metric,
returning normally, and `analyze_company_position` (which consumes
`get_industry_metrics`) therefore also returns normally with the metric
absent. -/
theorem C8_unsupported_metric_behavior (m : String)
    (hm : List.lookup m key_metrics = none)
    (fetch : String → String → Option (List FrameRow)) (cik : String)
    (year : Int) (quarter : Option Int) (top_n : Nat) :
    get_peer_rankings fetch m top_n = .error ("Unsupported metric: " ++ m) ∧
    get_industry_metrics fetch (some [m]) = [] ∧
    analyze_company_position fetch cik year quarter (some [m]) = [] := by
  have hgm : get_industry_metrics fetch (some [m]) = [] := by
    simp [get_industry_metrics, metricsOrDefault, hm]
  refine ⟨?_, hgm, ?_⟩
  · simp [get_peer_rankings, hm]
  · simp [analyze_company_position, hgm]

/-- Witness for C8 amended at `"InvalidMetric"`. -/
theorem C8_unsupported_metric_behavior_witness :
    get_peer_rankings (fun _ _ => some [⟨"0000001", "CompanyA", 5⟩])
      "InvalidMetric" 3 = .error "Unsupported metric: InvalidMetric" ∧
    get_industry_metrics (fun _ _ => some [⟨"0000001", "CompanyA", 5⟩])
      (some ["InvalidMetric"]) = [] ∧
    analyze_company_position (fun _ _ => some [⟨"0000001", "CompanyA", 5⟩])
      "0000001" 2024 (some 4) (some ["InvalidMetric"]) = [] :=
  C8_unsupported_metric_behavior "InvalidMetric" (by decide)
    (fun _ _ => some [⟨"0000001", "CompanyA", 5⟩]) "0000001" 2024 (some 4) 3

/-- C9: for a metric frame that contains a row for the given company,
`analyze_company_position` reports exactly one row for that metric whose
percentile is the fraction of all frame values `≤` the company's value
(the first matching row's value), scaled to 0-100; a company whose value
is `≥` every frame value gets exactly 100; a frame with no row for the
company skips the metric without failing; and on the frame values
1M, 2M, 3M with company value 2M the percentile is strictly between 33
and 67. -/
theorem C9_analyze_company_position_percentile
    (fetch : String → String → Option (List FrameRow)) (m tag unit : String)
    (hm : List.lookup m key_metrics = some (tag, unit))
    (rows : List FrameRow) (hf : fetch tag unit = some rows)
    (cik : String) (year : Int) (quarter : Option Int) :
    (∀ row, rows.find? (fun r => r.cik == cik) = some row →
      analyze_company_position fetch cik year quarter (some [m]) =
        [⟨m, row.val, medianQ (rows.map (fun r => r.val)),
          meanQ (rows.map (fun r => r.val)),
          percentileOf (rows.map (fun r => r.val)) row.val, rows.length,
          periodStr quarter year⟩] ∧
      percentileOf (rows.map (fun r => r.val)) row.val =
        (((rows.map (fun r => r.val)).countP (fun v => v ≤ row.val) : ℚ) /
          (rows.length : ℚ)) * 100 ∧
      ((∀ r ∈ rows, r.val ≤ row.val) →
        percentileOf (rows.map (fun r => r.val)) row.val = 100)) ∧
    (rows.find? (fun r => r.cik == cik) = none →
      analyze_company_position fetch cik year quarter (some [m]) = []) ∧
    ((analyze_company_position
        (fun t u => if t = "Assets" ∧ u = "USD" then
          some [⟨"0000001", "A", 1000000⟩, ⟨"0000002", "B", 2000000⟩,
            ⟨"0000003", "C", 3000000⟩] else none)
        "0000002" 2024 (some 4) (some ["Assets"])).map
        (fun r => r.percentile) = [200 / 3] ∧
      (33 : ℚ) < 200 / 3 ∧ (200 / 3 : ℚ) < 67) := by
  have hgm : get_industry_metrics fetch (some [m]) = [(m, rows)] := by
    simp [get_industry_metrics, metricsOrDefault, hm, hf, dictInsert]
  refine ⟨?_, ?_, ?_⟩
  · intro row hrow
    have hmem : row ∈ rows := List.mem_of_find?_eq_some hrow
    have hne : rows ≠ [] := by
      intro e
      rw [e] at hrow
      simp at hrow
    have hemp : rows.isEmpty = false := by
      cases rows with
      | nil => exact absurd rfl hne
      | cons a l => rfl
    refine ⟨?_, ?_, ?_⟩
    · simp only [analyze_company_position, hgm, List.foldl]
      simp [hemp, hrow]
    · simp [percentileOf, List.length_map]
    · intro hmax
      have hcount : (rows.map (fun r => r.val)).countP
          (fun v => v ≤ row.val) = (rows.map (fun r => r.val)).length := by
        rw [List.countP_eq_length]
        intro v hv
        obtain ⟨r, hr, rfl⟩ := List.mem_map.mp hv
        exact decide_eq_true (hmax r hr)
      have hlen : ((rows.map (fun r => r.val)).length : ℚ) ≠ 0 := by
        rw [List.length_map]
        exact Nat.cast_ne_zero.mpr
          (Nat.pos_iff_ne_zero.mp (List.length_pos.mpr hne))
      unfold percentileOf
      rw [hcount, div_self hlen, one_mul]
  · intro hnone
    simp only [analyze_company_position, hgm, List.foldl]
    simp [hnone]
  · refine ⟨?_, by norm_num, by norm_num⟩
    have e1 : (analyze_company_position
        (fun t u => if t = "Assets" ∧ u = "USD" then
          some [⟨"0000001", "A", 1000000⟩, ⟨"0000002", "B", 2000000⟩,
            ⟨"0000003", "C", 3000000⟩] else none)
        "0000002" 2024 (some 4) (some ["Assets"])).map
        (fun r => r.percentile) =
        [percentileOf [1000000, 2000000, 3000000] 2000000] := rfl
    have hc : (([1000000, 2000000, 3000000] : List ℚ).countP
        (fun v => v ≤ 2000000)) = 2 := by decide
    have e2 : percentileOf [1000000, 2000000, 3000000] 2000000 = 200 / 3 := by
      unfold percentileOf
      rw [hc]
      norm_num
    rw [e1, e2]

/-- Witness for C9 at the three-company Assets frame used by the
repository's own test: company `0000002` with value 2M lands at
percentile 200/3. -/
theorem C9_analyze_company_position_percentile_witness :
    analyze_company_position
      (fun t u => if t = "Assets" ∧ u = "USD" then
        some [⟨"0000001", "A", 1000000⟩, ⟨"0000002", "B", 2000000⟩,
          ⟨"0000003", "C", 3000000⟩] else none)
      "0000002" 2024 (some 4) (some ["Assets"]) =
      [⟨"Assets", 2000000, medianQ [1000000, 2000000, 3000000],
        meanQ [1000000, 2000000, 3000000],
        percentileOf [1000000, 2000000, 3000000] 2000000, 3, "Q42024"⟩] :=
  ((C9_analyze_company_position_percentile
    (fun t u => if t = "Assets" ∧ u = "USD" then
      some [⟨"0000001", "A", 1000000⟩, ⟨"0000002", "B", 2000000⟩,
        ⟨"0000003", "C", 3000000⟩] else none)
    "Assets" "Assets" "USD" rfl
    [⟨"0000001", "A", 1000000⟩, ⟨"0000002", "B", 2000000⟩,
      ⟨"0000003", "C", 3000000⟩] (by simp)
    "0000002" 2024 (some 4)).1 ⟨"0000002", "B", 2000000⟩ (by decide)).1
